import Mathlib

/-!
Verification development for the multi-llm-agent repository.

Each definition is a shallow embedding of a function from the repository
source (src/agent.py, src/config.py, src/llms/*.py).  Python dicts are
modelled as ordered association lists with Python dict-assignment
semantics (replace the value in place for an existing key, append for a
new key); machine floats that the code only compares against literal
bounds are modelled as rationals; fallible code returns Except.
-/

set_option maxRecDepth 8192

namespace MultiAgent

/-! ## Python dict model

A Python dict is an ordered association list with unique keys.  The
operations below reproduce the observable behaviour of dict lookup,
dict assignment (`d[k] = v`) and `dict.update`. -/

/-- Python `d.get(k)`: first value stored under key `k`, if any. -/
def dictGet {α : Type} (d : List (String × α)) (k : String) : Option α :=
  match d with
  | [] => none
  | p :: rest => if p.1 = k then some p.2 else dictGet rest k

/-- Keys of an association list, in storage order. -/
def dictKeys {α : Type} (d : List (String × α)) : List String :=
  d.map Prod.fst

/-- Python dict assignment `d[k] = v`: replace the value in place if the
key is present, otherwise append the new pair at the end. -/
def dictSet {α : Type} (d : List (String × α)) (k : String) (v : α) :
    List (String × α) :=
  if k ∈ dictKeys d then
    d.map (fun p => if p.1 = k then (k, v) else p)
  else
    d ++ [(k, v)]

/-- Python `d.update(m)`: assign every pair of `m` into `d` in order. -/
def dictUpdate {α : Type} (d m : List (String × α)) : List (String × α) :=
  m.foldl (fun acc p => dictSet acc p.1 p.2) d

theorem dictGet_eq_none_of_not_mem {α : Type} (m : List (String × α))
    (k : String) (h : k ∉ dictKeys m) : dictGet m k = none := by
  induction m with
  | nil => rfl
  | cons p rest ih =>
    have h1 : ¬ p.1 = k := by
      intro he
      exact h (by simp [dictKeys, he])
    have h2 : k ∉ dictKeys rest := by
      intro hm
      exact h (by simp [dictKeys] at hm ⊢; exact Or.inr hm)
    simp only [dictGet, if_neg h1]
    exact ih h2

theorem dictGet_map_overwrite_ne {α : Type} (d : List (String × α))
    (k k0 : String) (v : α) (h : k ≠ k0) :
    dictGet (d.map (fun p => if p.1 = k0 then (k0, v) else p)) k =
      dictGet d k := by
  induction d with
  | nil => rfl
  | cons p rest ih =>
    simp only [List.map_cons]
    by_cases hp : p.1 = k0
    · rw [if_pos hp]
      show (if k0 = k then some v else _) = _
      rw [if_neg (fun he : k0 = k => h he.symm)]
      show _ = dictGet (p :: rest) k
      simp only [dictGet, if_neg (fun he : p.1 = k => h (hp.symm.trans he).symm)]
      exact ih
    · rw [if_neg hp]
      show (if p.1 = k then some p.2 else _) = _
      by_cases hk : p.1 = k
      · simp [dictGet, hk]
      · rw [if_neg hk]
        show _ = dictGet (p :: rest) k
        simp only [dictGet, if_neg hk]
        exact ih

theorem dictGet_append_single_ne {α : Type} (d : List (String × α))
    (k k0 : String) (v : α) (h : k ≠ k0) :
    dictGet (d ++ [(k0, v)]) k = dictGet d k := by
  induction d with
  | nil =>
    show (if k0 = k then some v else dictGet [] k) = dictGet [] k
    rw [if_neg (fun he : k0 = k => h he.symm)]
  | cons p rest ih =>
    simp only [List.cons_append, dictGet]
    by_cases hk : p.1 = k
    · simp [hk]
    · simp only [if_neg hk]; exact ih

theorem dictGet_dictSet_ne {α : Type} (d : List (String × α))
    (k k0 : String) (v : α) (h : k ≠ k0) :
    dictGet (dictSet d k0 v) k = dictGet d k := by
  unfold dictSet
  split
  · exact dictGet_map_overwrite_ne d k k0 v h
  · exact dictGet_append_single_ne d k k0 v h

theorem dictGet_dictSet_self {α : Type} (d : List (String × α))
    (k : String) (v : α) : dictGet (dictSet d k v) k = some v := by
  unfold dictSet
  split
  case isTrue hmem =>
    induction d with
    | nil => simp [dictKeys] at hmem
    | cons p rest ih =>
      simp only [List.map_cons]
      by_cases hp : p.1 = k
      · rw [if_pos hp]
        show (if k = k then some v else _) = some v
        rw [if_pos rfl]
      · rw [if_neg hp]
        show (if p.1 = k then some p.2 else _) = some v
        rw [if_neg hp]
        apply ih
        simp only [dictKeys, List.map_cons, List.mem_cons] at hmem
        rcases hmem with he | hm
        · exact absurd he.symm hp
        · simpa [dictKeys] using hm
  case isFalse hmem =>
    induction d with
    | nil =>
      show (if k = k then some v else dictGet [] k) = some v
      rw [if_pos rfl]
    | cons p rest ih =>
      have h1 : ¬ p.1 = k := by
        intro he
        exact hmem (by simp [dictKeys, he])
      have h2 : k ∉ dictKeys rest := by
        intro hm
        exact hmem (by simp [dictKeys] at hm ⊢; exact Or.inr hm)
      simp only [List.cons_append, dictGet, if_neg h1]
      exact ih h2

theorem dictGet_dictUpdate_of_none {α : Type} (m : List (String × α)) :
    ∀ (d : List (String × α)) (k : String), dictGet m k = none →
      dictGet (dictUpdate d m) k = dictGet d k := by
  induction m with
  | nil => intro d k _; rfl
  | cons p rest ih =>
    intro d k h
    simp only [dictGet] at h
    by_cases hp : p.1 = k
    · simp [hp] at h
    · simp only [if_neg hp] at h
      show dictGet (dictUpdate (dictSet d p.1 p.2) rest) k = _
      rw [ih _ _ h, dictGet_dictSet_ne _ _ _ _ (fun he : k = p.1 => hp he.symm)]

theorem dictGet_dictUpdate {α : Type} (m : List (String × α)) :
    ∀ (d : List (String × α)) (k : String), (dictKeys m).Nodup →
      dictGet (dictUpdate d m) k = (dictGet m k).elim (dictGet d k) some := by
  induction m with
  | nil => intro d k _; rfl
  | cons p rest ih =>
    intro d k hnd
    simp only [dictKeys, List.map_cons, List.nodup_cons] at hnd
    show dictGet (dictUpdate (dictSet d p.1 p.2) rest) k = _
    by_cases hp : p.1 = k
    · have hrest : dictGet rest k = none := by
        apply dictGet_eq_none_of_not_mem
        rw [← hp]
        simpa [dictKeys] using hnd.1
      rw [dictGet_dictUpdate_of_none rest _ k hrest, hp, dictGet_dictSet_self]
      simp [dictGet, hp]
    · rw [ih _ k (by simpa [dictKeys] using hnd.2),
        dictGet_dictSet_ne _ _ _ _ (fun he : k = p.1 => hp he.symm)]
      simp [dictGet, if_neg hp]

/-! ## Module context (src/llms/base.py, BaseLLMModule.add_context)

A module context value is either a string or a nested dict of strings
(the `additional_context` field of the sanitized agent context is a
dict).  `BaseLLMModule.add_context` checks that the argument is a dict
(always true in this typed embedding) and then runs
`self.context.update(context)`. -/

/-- Value stored in a module context: a plain string, or a nested dict
(the sanitized agent context carries `additional_context` as a dict). -/
inductive CtxVal : Type where
  | s (v : String)
  | d (entries : List (String × String))
deriving DecidableEq, Repr

/-- Context map of one cognitive module. -/
def ModuleCtx : Type := List (String × CtxVal)

instance : DecidableEq ModuleCtx := by
  unfold ModuleCtx
  infer_instance

/-- Embedding of `BaseLLMModule.add_context` (src/llms/base.py lines
176-180): the `isinstance(context, dict)` guard is vacuous for a typed
dict argument, and the body is `self.context.update(context)`. -/
def moduleAddContext (ctx : ModuleCtx) (m : ModuleCtx) : ModuleCtx :=
  dictUpdate ctx m

/-! ## Orchestrator context (src/agent.py, MultiLLMAgent.add_context)

The orchestrator validates the supplied mapping through the pydantic
model `AgentContext` (required string fields `domain`,
`expertise_level`, `preferred_language`; the `additional_context` field
defaults to the empty dict and rejects a plain-string value since it is
declared `Dict[str, Any]`; unknown keys are ignored by pydantic v1),
then applies `validated_context.dict()` to the three modules in order.
On a module failure it calls `_rollback_context`, which passes `{}` to
each module's `add_context`. -/

/-- Validated agent context (pydantic model `AgentContext`). -/
structure AgentCtx : Type where
  domain : String
  expertiseLevel : String
  preferredLanguage : String
deriving DecidableEq, Repr

/-- Embedding of `AgentContext(**context)` for a `Dict[str, str]`
argument: succeeds iff the three required fields are present and the
`additional_context` key is absent (a plain string cannot be coerced to
`Dict[str, Any]`); extra keys are ignored. -/
def validateAgentContext (m : List (String × String)) :
    Except String AgentCtx :=
  match dictGet m "domain", dictGet m "expertise_level",
      dictGet m "preferred_language" with
  | some dv, some ev, some lv =>
    if (dictGet m "additional_context").isSome then
      Except.error "additional_context: value is not a valid dict"
    else
      Except.ok ⟨dv, ev, lv⟩
  | _, _, _ => Except.error "field required"

/-- Embedding of `validated_context.dict()`: the four declared fields of
`AgentContext`, with `additional_context` defaulted to the empty dict. -/
def sanitizedDict (c : AgentCtx) : ModuleCtx :=
  [("domain", CtxVal.s c.domain),
   ("expertise_level", CtxVal.s c.expertiseLevel),
   ("preferred_language", CtxVal.s c.preferredLanguage),
   ("additional_context", CtxVal.d [])]

/-- Contexts of the three cognitive modules owned by the orchestrator. -/
structure AgentState : Type where
  reasoningCtx : ModuleCtx
  plannerCtx : ModuleCtx
  executorCtx : ModuleCtx
deriving DecidableEq

/-- Embedding of `MultiLLMAgent._rollback_context` (src/agent.py lines
131-138): each module receives `add_context({})`. -/
def rollbackContext (st : AgentState) : AgentState :=
  { reasoningCtx := moduleAddContext st.reasoningCtx []
    plannerCtx := moduleAddContext st.plannerCtx []
    executorCtx := moduleAddContext st.executorCtx [] }

/-- Embedding of `MultiLLMAgent.add_context` (src/agent.py lines
106-129).  Returns the outcome together with the post-call state.
Validation failure raises before any module is touched.  For a dict
argument the per-module `add_context` cannot raise (its only check is
`isinstance(context, dict)`), so the rollback branch is unreachable;
`rollbackContext` is embedded separately above. -/
def agentAddContext (st : AgentState) (m : List (String × String)) :
    Except String Unit × AgentState :=
  match validateAgentContext m with
  | Except.error e => (Except.error e, st)
  | Except.ok v =>
    let sd := sanitizedDict v
    (Except.ok (),
      { reasoningCtx := moduleAddContext st.reasoningCtx sd
        plannerCtx := moduleAddContext st.plannerCtx sd
        executorCtx := moduleAddContext st.executorCtx sd })

/-- Empty orchestrator state (contexts at module construction). -/
def emptyAgentState : AgentState := ⟨[], [], []⟩

/-- Mapping with all three required fields. -/
def okMapping : List (String × String) :=
  [("domain", "medicine"), ("expertise_level", "expert"),
   ("preferred_language", "en")]

/-- Mapping missing the required field `domain`. -/
def badMapping : List (String × String) :=
  [("expertise_level", "expert")]

/-- C1 counterexample: starting from a state where a context was
successfully applied, a failing `add_context` (missing required field
`domain`) leaves every module context non-empty, refuting the claim
that all module contexts are empty after a failure. -/
theorem contextFailure_modules_not_empty :
    ((agentAddContext (agentAddContext emptyAgentState okMapping).2
        badMapping).1.isOk = false) ∧
    (agentAddContext (agentAddContext emptyAgentState okMapping).2
        badMapping).2.reasoningCtx ≠ [] ∧
    (agentAddContext (agentAddContext emptyAgentState okMapping).2
        badMapping).2.plannerCtx ≠ [] ∧
    (agentAddContext (agentAddContext emptyAgentState okMapping).2
        badMapping).2.executorCtx ≠ [] := by
  decide

/-- C1 (amended): when the orchestrator's `add_context` fails, every
module's context is unchanged from its pre-call value (a validation
failure occurs before any module is touched), and the rollback helper
is the identity because the per-module `add_context` merges, so
`add_context({})` changes nothing. -/
theorem addContext_failure_preserves_contexts (st : AgentState)
    (m : List (String × String))
    (h : (agentAddContext st m).1.isOk = false) :
    (agentAddContext st m).2 = st ∧ rollbackContext st = st := by
  constructor
  · unfold agentAddContext at h ⊢
    cases hv : validateAgentContext m with
    | error e => simp [hv]
    | ok v =>
      rw [hv] at h
      exact Bool.noConfusion h
  · unfold rollbackContext moduleAddContext dictUpdate
    simp [List.foldl]

/-- C1 amended-claim witness at a concrete failing input. -/
theorem addContext_failure_preserves_contexts_inst :
    (agentAddContext (agentAddContext emptyAgentState okMapping).2
        badMapping).2 = (agentAddContext emptyAgentState okMapping).2 ∧
    rollbackContext (agentAddContext emptyAgentState okMapping).2 =
      (agentAddContext emptyAgentState okMapping).2 :=
  addContext_failure_preserves_contexts
    (agentAddContext emptyAgentState okMapping).2 badMapping (by decide)

/-- C2 counterexample: with `m1 = {"a": "1"}` and `m2 = {"b": "2"}`,
calling the module's `add_context(m1)` then `add_context(m2)` on an
initially empty context yields `{"a": "1", "b": "2"}`, not `m2` alone:
the key `"a"` from `m1`, absent from `m2`, survives the second call. -/
theorem moduleAddContext_not_replace_all :
    moduleAddContext (moduleAddContext [] [("a", CtxVal.s "1")])
        [("b", CtxVal.s "2")] =
      [("a", CtxVal.s "1"), ("b", CtxVal.s "2")] ∧
    dictGet (moduleAddContext (moduleAddContext [] [("a", CtxVal.s "1")])
        [("b", CtxVal.s "2")]) "a" = some (CtxVal.s "1") := by
  constructor
  · rfl
  · rfl

/-- C2 (amended): the per-module `add_context` merges the mapping into
the existing context (`dict.update`): after `add_context(m1)` then
`add_context(m2)`, every key absent from `m2` keeps its value from the
first call, and (for `m2` with distinct keys) every key of `m2` takes
the value from `m2`. -/
theorem moduleAddContext_merge_semantics (ctx : ModuleCtx)
    (m1 m2 : ModuleCtx) (k : String) :
    (dictGet m2 k = none →
      dictGet (moduleAddContext (moduleAddContext ctx m1) m2) k =
        dictGet (moduleAddContext ctx m1) k) ∧
    ((dictKeys m2).Nodup → ∀ v, dictGet m2 k = some v →
      dictGet (moduleAddContext (moduleAddContext ctx m1) m2) k = some v) := by
  constructor
  · intro h
    exact dictGet_dictUpdate_of_none m2 _ k h
  · intro hnd v hv
    unfold moduleAddContext
    rw [dictGet_dictUpdate m2 _ k hnd, hv]
    rfl

/-- C2 amended-claim witness at concrete inputs. -/
theorem moduleAddContext_merge_semantics_inst :
    dictGet (moduleAddContext (moduleAddContext [] [("a", CtxVal.s "1")])
        [("b", CtxVal.s "2")]) "a" =
      dictGet (moduleAddContext [] [("a", CtxVal.s "1")]) "a" ∧
    dictGet (moduleAddContext (moduleAddContext [] [("a", CtxVal.s "1")])
        [("b", CtxVal.s "2")]) "b" = some (CtxVal.s "2") :=
  ⟨(moduleAddContext_merge_semantics [] [("a", CtxVal.s "1")]
      [("b", CtxVal.s "2")] "a").1 (by decide),
   (moduleAddContext_merge_semantics [] [("a", CtxVal.s "1")]
      [("b", CtxVal.s "2")] "b").2 (by decide) (CtxVal.s "2") (by decide)⟩

/-! ## Rate limiter (src/llms/rate_limiter.py)

`RateLimiter.acquire` guards its whole body with
`async with self._locks[model]`, an `asyncio.Semaphore` sized to
`concurrent_requests`: the semaphore is acquired on entry to the block
and released again when the block exits, i.e. when `acquire` returns.
`RateLimiter.release` increments the same semaphore once more.  Inside
the block the code prunes the timestamp window, sleeps
`60 - (current_time - window[0])` when the pruned window is full, and
appends a fresh timestamp.  Time is modelled as a rational. -/

/-- Per-model limiter state: `sem` is the number of available permits of
the `asyncio.Semaphore` (initially `concurrent_requests`), `times` the
request-timestamp window, `rpm` the `requests_per_minute` bound. -/
structure LimState : Type where
  sem : Nat
  times : List ℚ
  rpm : Nat
deriving DecidableEq

/-- Window pruning (rate_limiter.py lines 31-35): keep the timestamps
`t` with `current_time - t < 60`. -/
def pruneWindow (times : List ℚ) (now : ℚ) : List ℚ :=
  times.filter (fun t => now - t < 60)

/-- Sleep performed by the admission check (rate_limiter.py lines
37-41): when the pruned window has reached `requests_per_minute`
entries, sleep `60 - (now - window[0])` if that is positive, else
nothing. -/
def rateSleep (pruned : List ℚ) (rpm : Nat) (now : ℚ) : ℚ :=
  if rpm ≤ pruned.length then
    let waitTime := 60 - (now - pruned.headD 0)
    if 0 < waitTime then waitTime else 0
  else 0

/-- One caller running `RateLimiter.acquire` to completion with no
interleaving, entering at time `now` (rate_limiter.py lines 22-44).
`none` means the caller blocks at the semaphore (no permit available).
Otherwise the semaphore is decremented on entry to the `async with`
block and incremented again when the block exits, so the returned state
has the same `sem` as the input; the window is pruned, the rate sleep
is performed, and the post-sleep clock reading is appended. -/
def acquireRun (s : LimState) (now : ℚ) : Option LimState :=
  if s.sem = 0 then
    none
  else
    let pruned := pruneWindow s.times now
    let sleepT := rateSleep pruned s.rpm now
    some { s with times := pruned ++ [now + sleepT] }

/-- Embedding of `RateLimiter.release` (rate_limiter.py lines 46-49):
one unconditional `Semaphore.release`, incrementing the permit count. -/
def releaseRun (s : LimState) : LimState :=
  { s with sem := s.sem + 1 }

/-- C3: the code does not hold a concurrency permit after `acquire`
returns.  For a model configured with `concurrent_requests = 1`: a
first caller's completed `acquire` leaves the full permit count
available, a second back-to-back `acquire` proceeds without any
intervening `release` (the claim says it must block), and a
`release` after the completed `acquire` raises the permit count to 2,
above the configured bound of 1. -/
theorem acquire_releases_permit_on_return :
    acquireRun ⟨1, [], 60⟩ 0 = some ⟨1, [0], 60⟩ ∧
    (⟨1, [0], 60⟩ : LimState).sem = 1 ∧
    (acquireRun ⟨1, [0], 60⟩ 1).isSome = true ∧
    (releaseRun ⟨1, [0], 60⟩).sem = 2 := by
  refine ⟨?_, rfl, ?_, rfl⟩
  · show (if (1 : Nat) = 0 then none else _) = _
    rw [if_neg (by decide)]
    simp only [pruneWindow, rateSleep, List.filter]
    norm_num
  · show (if (1 : Nat) = 0 then none else _).isSome = true
    rw [if_neg (by decide)]
    rfl

/-- C8: on every admission check the window is pruned of all timestamps
aged 60 seconds or more (in particular every timestamp older than 60
seconds is dropped); when the pruned window holds at least
`requests_per_minute` entries and `60 - (now - oldest)` is positive the
caller sleeps exactly that long (the window being kept in ascending
order, the head is the oldest entry); and when the window is not full
no sleep happens. -/
theorem rateWindow_sleep_exact (times : List ℚ) (now : ℚ) (rpm : Nat) :
    (∀ t ∈ times, 60 ≤ now - t → t ∉ pruneWindow times now) ∧
    (times.Sorted (· ≤ ·) →
      ∀ t ∈ pruneWindow times now, (pruneWindow times now).headD 0 ≤ t) ∧
    (rpm ≤ (pruneWindow times now).length →
      0 < 60 - (now - (pruneWindow times now).headD 0) →
      rateSleep (pruneWindow times now) rpm now =
        60 - (now - (pruneWindow times now).headD 0)) ∧
    ((pruneWindow times now).length < rpm →
      rateSleep (pruneWindow times now) rpm now = 0) := by
  refine ⟨?_, ?_, ?_, ?_⟩
  · intro t _ hage hmem
    have := List.of_mem_filter hmem
    simp only [decide_eq_true_eq] at this
    linarith
  · intro hsorted t hmem
    have hps : (pruneWindow times now).Sorted (· ≤ ·) :=
      hsorted.filter _
    cases hpw : pruneWindow times now with
    | nil => rw [hpw] at hmem; exact absurd hmem (List.not_mem_nil t)
    | cons a l =>
      rw [hpw] at hmem hps
      simp only [List.headD_cons]
      rcases List.mem_cons.mp hmem with he | hl
      · exact le_of_eq he.symm
      · exact (List.sorted_cons.mp hps).1 t hl
  · intro hfull hpos
    unfold rateSleep
    rw [if_pos hfull, if_pos hpos]
  · intro hlt
    unfold rateSleep
    rw [if_neg (by omega)]

/-- C8 witness: window `[20, 30]` at `now = 70` with
`requests_per_minute = 2` keeps both timestamps, and the computed sleep
is exactly `60 - (70 - 20) = 10`. -/
theorem rateWindow_sleep_exact_inst :
    pruneWindow [(20 : ℚ), 30] 70 = [20, 30] ∧
    rateSleep (pruneWindow [(20 : ℚ), 30] 70) 2 70 = 10 := by
  have hw : pruneWindow [(20 : ℚ), 30] 70 = [20, 30] := by
    norm_num [pruneWindow, List.filter_cons]
  have h := (rateWindow_sleep_exact [(20 : ℚ), 30] 70 2).2.2.1
    (by rw [hw]; norm_num) (by rw [hw]; norm_num)
  refine ⟨hw, ?_⟩
  rw [h, hw]
  norm_num

/-! ## Error taxonomy (src/llms/errors.py, raise_for_status_code) -/

/-- Exception classes that `raise_for_status_code` can raise. -/
inductive ApiErrorKind : Type where
  | invalidRequest
  | authentication
  | quotaExceeded
  | serviceUnavailable
  | generic
deriving DecidableEq, Repr

/-- The `error_map` dict of `raise_for_status_code` (errors.py lines
78-87) together with the `error_map.get(status_code, APIError(...))`
default: the class chosen for a status that will be raised. -/
def statusErrorMap (status : Nat) : ApiErrorKind :=
  if status = 400 then ApiErrorKind.invalidRequest
  else if status = 401 then ApiErrorKind.authentication
  else if status = 403 then ApiErrorKind.authentication
  else if status = 429 then ApiErrorKind.quotaExceeded
  else if status = 500 then ApiErrorKind.serviceUnavailable
  else if status = 502 then ApiErrorKind.serviceUnavailable
  else if status = 503 then ApiErrorKind.serviceUnavailable
  else if status = 504 then ApiErrorKind.serviceUnavailable
  else ApiErrorKind.generic

/-- Embedding of `raise_for_status_code` (errors.py lines 67-94):
raises for `status_code >= 400`, choosing the class from `error_map`
with a generic `APIError` default; returns normally below 400. -/
def raiseForStatusCode (status : Nat) : Option ApiErrorKind :=
  if 400 ≤ status then some (statusErrorMap status) else none

/-- C6 counterexample: status 501 is a 5xx status, but the code raises
the generic `APIError`, not `ServiceUnavailableError` as the claim
requires for every status in 500-599. -/
theorem status501_not_service_unavailable :
    raiseForStatusCode 501 = some ApiErrorKind.generic ∧
    ApiErrorKind.generic ≠ ApiErrorKind.serviceUnavailable := by
  exact ⟨by decide, by decide⟩

/-- C6 (amended): `raise_for_status_code` maps 400 to
`InvalidRequestError`, 401 and 403 to `AuthenticationError`, 429 to
`QuotaExceededError`, exactly the four statuses 500, 502, 503, 504 to
`ServiceUnavailableError`, every other status at least 400 (including
the remaining 5xx codes) to the generic `APIError`, and raises nothing
below 400. -/
theorem raiseForStatusCode_classification (s : Nat) :
    (s < 400 → raiseForStatusCode s = none) ∧
    raiseForStatusCode 400 = some ApiErrorKind.invalidRequest ∧
    raiseForStatusCode 401 = some ApiErrorKind.authentication ∧
    raiseForStatusCode 403 = some ApiErrorKind.authentication ∧
    raiseForStatusCode 429 = some ApiErrorKind.quotaExceeded ∧
    (s = 500 ∨ s = 502 ∨ s = 503 ∨ s = 504 →
      raiseForStatusCode s = some ApiErrorKind.serviceUnavailable) ∧
    (400 ≤ s → s ≠ 400 → s ≠ 401 → s ≠ 403 → s ≠ 429 → s ≠ 500 →
      s ≠ 502 → s ≠ 503 → s ≠ 504 →
      raiseForStatusCode s = some ApiErrorKind.generic) := by
  refine ⟨?_, by decide, by decide, by decide, by decide, ?_, ?_⟩
  · intro h
    unfold raiseForStatusCode
    rw [if_neg (by omega)]
  · rintro (rfl | rfl | rfl | rfl) <;> decide
  · intro hge h400 h401 h403 h429 h500 h502 h503 h504
    unfold raiseForStatusCode statusErrorMap
    rw [if_pos hge, if_neg h400, if_neg h401, if_neg h403, if_neg h429,
      if_neg h500, if_neg h502, if_neg h503, if_neg h504]

/-- C6 amended-claim witness: concrete statuses on each branch. -/
theorem raiseForStatusCode_classification_inst :
    raiseForStatusCode 200 = none ∧
    raiseForStatusCode 503 = some ApiErrorKind.serviceUnavailable ∧
    raiseForStatusCode 418 = some ApiErrorKind.generic :=
  ⟨(raiseForStatusCode_classification 200).1 (by norm_num),
   (raiseForStatusCode_classification 503).2.2.2.2.2.1
     (by norm_num),
   (raiseForStatusCode_classification 418).2.2.2.2.2.2 (by norm_num)
     (by norm_num) (by norm_num) (by norm_num) (by norm_num)
     (by norm_num) (by norm_num) (by norm_num) (by norm_num)⟩

/-! ## Planner step parser (src/llms/planner.py, PlannerModule._parse_plan)

The parser is embedded over `List Char`, with `String.mk` used only on
output, so every definition reduces in the kernel.  `splitOnNl` is
Python `content.split('\n')` (it keeps empty pieces), `pyStripL` is
`str.strip()` over the ASCII whitespace set, and `afterFirstChar c`
is `s.split(c, 1)[-1]`: the text after the first occurrence of `c`
when present, the whole text otherwise. -/

/-- ASCII whitespace stripped by Python `str.strip()`. -/
def isPyWs (c : Char) : Bool :=
  c == ' ' || c == '\t' || c == '\n' || c == '\r' ||
    c == Char.ofNat 11 || c == Char.ofNat 12

/-- Python `str.strip()`. -/
def pyStripL (l : List Char) : List Char :=
  ((l.dropWhile isPyWs).reverse.dropWhile isPyWs).reverse

/-- Python `content.split('\n')`: split at every newline, keeping empty
pieces. -/
def splitOnNl : List Char → List (List Char)
  | [] => [[]]
  | x :: xs =>
    let r := splitOnNl xs
    if x = '\n' then [] :: r
    else
      match r with
      | [] => [[x]]
      | g :: gs => (x :: g) :: gs

/-- The cleaned line list of `_parse_plan` (planner.py line 142):
strip each line, keep the non-empty ones. -/
def cleanedLines (content : String) : List (List Char) :=
  ((splitOnNl content.toList).map pyStripL).filter (fun l => !l.isEmpty)

/-- Line test of planner.py line 150: the first character is a digit or
a dash (lines are non-empty after the filter; the empty case is
unreachable and returns false). -/
def isMarkerLine (l : List Char) : Bool :=
  match l with
  | [] => false
  | c :: _ => c.isDigit || c == '-'

/-- Python `s.split(c, 1)[-1]`. -/
def afterFirstChar (c : Char) (l : List Char) : List Char :=
  if l.contains c then (l.dropWhile (fun x => x != c)).drop 1 else l

/-- Marker consumption of planner.py line 157:
`line.split('.', 1)[-1].split(')', 1)[-1].strip()`. -/
def markerStrip (l : List Char) : List Char :=
  pyStripL (afterFirstChar ')' (afterFirstChar '.' l))

/-- Python `' '.join(words)`. -/
def joinSpace : List (List Char) → List Char
  | [] => []
  | [w] => w
  | w :: ws => w ++ ' ' :: joinSpace ws

/-- The accumulation loop of `_parse_plan` (planner.py lines 145-165),
including the trailing flush of the open step. -/
def planLoop : List String → List (List Char) → List (List Char) →
    List String
  | steps, current, [] =>
    if current.isEmpty then steps
    else steps ++ [String.mk (joinSpace current)]
  | steps, current, l :: ls =>
    if isMarkerLine l then
      planLoop
        (if current.isEmpty then steps
         else steps ++ [String.mk (joinSpace current)])
        [markerStrip l] ls
    else
      planLoop steps (current ++ [l]) ls

/-- Embedding of `PlannerModule._parse_plan` (planner.py lines
139-171): zero parsed steps raise `PlannerError`. -/
def parsePlan (content : String) : Except String (List String) :=
  let steps := planLoop [] [] (cleanedLines content)
  if steps.isEmpty then
    Except.error "Failed to parse plan: No valid steps found"
  else
    Except.ok steps

theorem planLoop_length (ls : List (List Char)) :
    ∀ (steps : List String) (a : List Char) (cur : List (List Char)),
      (planLoop steps (a :: cur) ls).length =
        steps.length + 1 + ls.countP isMarkerLine := by
  induction ls with
  | nil =>
    intro steps a cur
    simp only [planLoop, List.countP_nil, List.isEmpty_cons]
    simp
  | cons l ls ih =>
    intro steps a cur
    simp only [planLoop, List.countP_cons]
    by_cases hm : isMarkerLine l = true
    · rw [if_pos hm]
      simp only [List.isEmpty_cons]
      rw [if_neg (by simp), ih _ (markerStrip l) []]
      simp [hm]
      omega
    · rw [if_neg hm]
      simp only [List.cons_append]
      rw [ih steps a (cur ++ [l])]
      have hmf : isMarkerLine l = false := by
        cases h : isMarkerLine l with
        | true => exact absurd h hm
        | false => rfl
      simp [hmf]

/-- C5 counterexample: the text `"Intro line\n1. Do it"` contains
exactly one marker line, but `_parse_plan` yields two steps: the text
before the first marker is flushed as a step of its own, so the step
count exceeds the marker-line count. -/
theorem parsePlan_leading_text_extra_step :
    parsePlan "Intro line\n1. Do it" =
      Except.ok ["Intro line", "Do it"] ∧
    (cleanedLines "Intro line\n1. Do it").countP isMarkerLine = 1 ∧
    (2 : Nat) ≠ 1 := by
  exact ⟨by rfl, by decide, by decide⟩

/-- C5 (amended): for every text whose first cleaned (stripped,
non-empty) line begins with a digit or dash marker, `_parse_plan`
succeeds and yields exactly one step per marker line (non-marker lines
are folded into the step opened by the preceding marker); and whenever
the accumulation loop produces zero steps, `_parse_plan` raises
`PlannerError` instead of returning. -/
theorem parsePlan_marker_count (content : String) :
    ((∃ l ls, cleanedLines content = l :: ls ∧ isMarkerLine l = true) →
      ∃ steps, parsePlan content = Except.ok steps ∧
        steps.length = (cleanedLines content).countP isMarkerLine ∧
        steps ≠ []) ∧
    (planLoop [] [] (cleanedLines content) = [] →
      parsePlan content =
        Except.error "Failed to parse plan: No valid steps found") := by
  constructor
  · rintro ⟨l, ls, hcl, hm⟩
    have hstep : planLoop [] [] (l :: ls) = planLoop [] [markerStrip l] ls := by
      simp only [planLoop]
      rw [if_pos hm]
      simp
    have hlen : (planLoop [] [markerStrip l] ls).length =
        1 + ls.countP isMarkerLine := by
      simpa using planLoop_length ls [] (markerStrip l) []
    have hne : planLoop [] [] (cleanedLines content) ≠ [] := by
      rw [hcl, hstep]
      intro he
      have h2 := congrArg List.length he
      rw [hlen] at h2
      simp at h2
    refine ⟨planLoop [] [] (cleanedLines content), ?_, ?_, hne⟩
    · unfold parsePlan
      rw [if_neg (fun hie => hne (List.isEmpty_iff.mp hie))]
    · rw [hcl, hstep, hlen]
      simp [List.countP_cons, hm]
      omega
  · intro h
    unfold parsePlan
    rw [h]
    rfl

/-- C5 amended-claim witness: a two-marker text with a continuation
line parses to two steps, and a whitespace-only text raises. -/
theorem parsePlan_marker_count_inst :
    (∃ steps, parsePlan "1. A\nmore\n2. B" = Except.ok steps ∧
      steps.length = (cleanedLines "1. A\nmore\n2. B").countP isMarkerLine ∧
      steps ≠ []) ∧
    parsePlan "  \n  " =
      Except.error "Failed to parse plan: No valid steps found" :=
  ⟨(parsePlan_marker_count "1. A\nmore\n2. B").1
      ⟨['1', '.', ' ', 'A'], [['m', 'o', 'r', 'e'], ['2', '.', ' ', 'B']],
        by decide, by decide⟩,
   (parsePlan_marker_count "  \n  ").2 (by decide)⟩

/-! ## Call executor (src/llms/base.py, BaseLLMModule._make_api_call)

Python values reachable in request parameters and parsed JSON
responses are modelled by `PyVal`.  Exceptions are modelled by `PyErr`:
the repository's `LLMError` hierarchy (with its `ValidationError`
subclass), pydantic's distinct `ValidationError`, and uncaught builtin
exceptions such as `KeyError`.  The outer handler of `_make_api_call`
(base.py lines 103-106) re-raises a pydantic `ValidationError` as the
taxonomy `ValidationError` and wraps every other exception - including
the taxonomy `ValidationError` itself, which is not pydantic's class -
into a plain `LLMError`. -/

/-- Python values appearing in request dicts and JSON responses. -/
inductive PyVal : Type where
  | str (s : String)
  | int (n : Int)
  | list (l : List PyVal)
  | dict (d : List (String × PyVal))

/-- Exceptions that the embedded call path can raise. -/
inductive PyErr : Type where
  | llmValidation (msg : String)
  | llmError (msg : String)
  | pydanticValidation (msg : String)
  | keyError (key : String)
deriving DecidableEq

/-- Message text used when re-wrapping an exception (`str(e)`). -/
def PyErr.text : PyErr → String
  | PyErr.llmValidation m => m
  | PyErr.llmError m => m
  | PyErr.pydanticValidation m => m
  | PyErr.keyError k => k

/-- The outer exception handler of `_make_api_call` (base.py lines
103-106): a pydantic `ValidationError` becomes the taxonomy
`ValidationError`; everything else (the taxonomy `ValidationError`
included) becomes a plain `LLMError`. -/
def wrapOuter (pfx : String) (e : PyErr) : PyErr :=
  match e with
  | PyErr.pydanticValidation m => PyErr.llmValidation (pfx ++ ": " ++ m)
  | e => PyErr.llmError (pfx ++ ": " ++ e.text)

/-- Embedding of `BaseLLMModule._validate_request_params` (base.py
lines 108-126). -/
def validateRequestParams (params : List (String × PyVal)) :
    Except PyErr Unit :=
  if (dictGet params "messages").isNone ∨ (dictGet params "model").isNone then
    Except.error (PyErr.llmValidation "Missing required fields")
  else
    match dictGet params "messages" with
    | some (PyVal.list msgs) =>
      if msgs.isEmpty then
        Except.error (PyErr.llmValidation "Messages list cannot be empty")
      else if msgs.all (fun m =>
          match m with
          | PyVal.dict _ => true
          | _ => false) = false then
        Except.error (PyErr.llmValidation "Each message must be a dictionary")
      else if msgs.all (fun m =>
          match m with
          | PyVal.dict d =>
            (dictGet d "role").isSome && (dictGet d "content").isSome
          | _ => false) = false then
        Except.error (PyErr.llmValidation "Messages must have role and content")
      else
        Except.ok ()
    | some _ => Except.error (PyErr.llmValidation "Messages must be a list")
    | none => Except.error (PyErr.llmValidation "Missing required fields")

/-- Validated message produced by the pydantic `MessageContent` model. -/
structure ValidMsg : Type where
  content : String
  role : String
deriving DecidableEq

/-- Embedding of `MessageContent(**choice['message'])` for one element
of `response['choices']`: the choice must be a dict with a `message`
key (a `KeyError` escapes the local handler), and the message must be a
dict carrying string `content` and `role` (anything else is a pydantic
`ValidationError`, caught locally and converted). -/
def validateChoice (c : PyVal) : Except PyErr ValidMsg :=
  match c with
  | PyVal.dict d =>
    match dictGet d "message" with
    | none => Except.error (PyErr.keyError "message")
    | some (PyVal.dict md) =>
      match dictGet md "content", dictGet md "role" with
      | some (PyVal.str cv), some (PyVal.str rv) => Except.ok ⟨cv, rv⟩
      | _, _ =>
        Except.error (PyErr.pydanticValidation "field validation error")
    | some _ =>
      Except.error (PyErr.pydanticValidation "message must be a mapping")
  | _ => Except.error (PyErr.keyError "message")

/-- Validate every choice in order, stopping at the first failure. -/
def validateChoices : List PyVal → Except PyErr (List ValidMsg)
  | [] => Except.ok []
  | c :: cs =>
    match validateChoice c with
    | Except.error e => Except.error e
    | Except.ok m =>
      match validateChoices cs with
      | Except.error e => Except.error e
      | Except.ok ms => Except.ok (m :: ms)

/-- Embedding of `BaseLLMModule._validate_response` (base.py lines
128-149) on a parsed JSON value: missing `choices`/`model` keys raise
`KeyError` (not caught by the local `except` clause); pydantic
failures become the taxonomy `ValidationError` with the
"Invalid API response format" text; then the two structural checks
reject an empty choice list and an empty first message content. -/
def validateResponse (r : PyVal) : Except PyErr (List ValidMsg) :=
  match r with
  | PyVal.dict d =>
    match dictGet d "choices" with
    | none => Except.error (PyErr.keyError "choices")
    | some (PyVal.list cs) =>
      match validateChoices cs with
      | Except.error (PyErr.pydanticValidation m) =>
        Except.error
          (PyErr.llmValidation ("Invalid API response format: " ++ m))
      | Except.error e => Except.error e
      | Except.ok ms =>
        match dictGet d "model" with
        | none => Except.error (PyErr.keyError "model")
        | some _ =>
          if ms.isEmpty then
            Except.error (PyErr.llmValidation "Response contains no choices")
          else if (ms.headD ⟨"", ""⟩).content = "" then
            Except.error
              (PyErr.llmValidation "Response message content is empty")
          else
            Except.ok ms
    | some _ =>
      Except.error
        (PyErr.llmValidation "Invalid API response format: not a list")
  | _ => Except.error (PyErr.keyError "choices")

/-- Outcome of one network attempt (`_execute_api_call` under
`asyncio.wait_for`). -/
inductive CallOutcome : Type where
  | timeout
  | exc (e : PyErr)
  | ok (r : PyVal)

/-- The retry loop of `_make_api_call` (base.py lines 79-98), modelled
with the attempt outcomes supplied as a function of the attempt index.
Returns the loop result together with the number of network attempts
performed.  Every in-loop failure - the taxonomy `ValidationError`
raised by `_validate_response` included - is caught by the generic
`except Exception` handler, stored as `last_error`, and retried. -/
def attemptLoop (outcomes : Nat → CallOutcome) (pfxTimeout : String) :
    Nat → Nat → Option PyErr → Except PyErr (List ValidMsg) × Nat
  | _, 0, last =>
    (Except.error ((last).getD (PyErr.llmError "All retry attempts failed")),
      0)
  | k, n + 1, _ =>
    match outcomes k with
    | CallOutcome.timeout =>
      let e := PyErr.llmError (pfxTimeout ++ ": Request timed out")
      let r := attemptLoop outcomes pfxTimeout (k + 1) n (some e)
      (r.1, r.2 + 1)
    | CallOutcome.exc e =>
      let r := attemptLoop outcomes pfxTimeout (k + 1) n (some e)
      (r.1, r.2 + 1)
    | CallOutcome.ok raw =>
      match validateResponse raw with
      | Except.ok v => (Except.ok v, 1)
      | Except.error e =>
        let r := attemptLoop outcomes pfxTimeout (k + 1) n (some e)
        (r.1, r.2 + 1)

/-- Embedding of `BaseLLMModule._make_api_call` (base.py lines 52-106):
request validation happens before the loop (its failure aborts with
zero attempts); the loop makes at most `max_retries + 1` attempts; the
final error is re-wrapped by the outer handler. -/
def makeApiCall (params : List (String × PyVal))
    (outcomes : Nat → CallOutcome) (pfx : String) (maxRetries : Nat) :
    Except PyErr (List ValidMsg) × Nat :=
  match validateRequestParams params with
  | Except.error e => (Except.error (wrapOuter pfx e), 0)
  | Except.ok _ =>
    match attemptLoop outcomes pfx 0 (maxRetries + 1) none with
    | (Except.ok v, n) => (Except.ok v, n)
    | (Except.error e, n) => (Except.error (wrapOuter pfx e), n)

/-- Response with a `choices` list that is empty: structurally invalid
despite being a 200-class payload. -/
def emptyChoicesResp : PyVal :=
  PyVal.dict [("choices", PyVal.list []), ("model", PyVal.str "m")]

/-- A well-formed request parameter dict. -/
def okParams : List (String × PyVal) :=
  [("messages",
    PyVal.list [PyVal.dict
      [("role", PyVal.str "user"), ("content", PyVal.str "hi")]]),
   ("model", PyVal.str "m")]

/-- C4 counterexample: with the default `max_retries = 1` and a server
that always answers with a 200-class payload whose `choices` list is
empty, `_make_api_call` performs two attempts - the response-validation
failure of the first attempt is retried - and the error finally raised
is a plain `LLMError` wrapping the validation text, not a
`ValidationError`. -/
theorem invalid_response_is_retried :
    makeApiCall okParams (fun _ => CallOutcome.ok emptyChoicesResp)
        "Reasoning analysis failed" 1 =
      (Except.error (PyErr.llmError
        "Reasoning analysis failed: Response contains no choices"), 2) ∧
    (2 : Nat) ≠ 1 := by
  exact ⟨by rfl, by decide⟩

/-- C4 (amended): a 200-class response failing the structural checks
makes `_validate_response` raise the taxonomy `ValidationError`;
request-shape validation failures abort before any network attempt
(zero attempts, never retried); but response-shape validation failures
are caught by the loop's generic handler and retried like transient
failures, so an always-invalid response consumes `max_retries + 1`
attempts, and the error that finally escapes is re-wrapped as a plain
`LLMError` carrying the validation text. -/
theorem response_validation_retry_behavior (maxRetries : Nat)
    (params : List (String × PyVal)) (outcomes : Nat → CallOutcome)
    (pfx emsg : String) :
    validateResponse emptyChoicesResp =
      Except.error (PyErr.llmValidation "Response contains no choices") ∧
    (validateRequestParams params =
        Except.error (PyErr.llmValidation emsg) →
      makeApiCall params outcomes pfx maxRetries =
        (Except.error (PyErr.llmError (pfx ++ ": " ++ emsg)), 0)) ∧
    makeApiCall okParams (fun _ => CallOutcome.ok emptyChoicesResp) pfx
        maxRetries =
      (Except.error (PyErr.llmError
        (pfx ++ ": " ++ "Response contains no choices")), maxRetries + 1) := by
  refine ⟨by rfl, ?_, ?_⟩
  · intro h
    unfold makeApiCall
    rw [h]
    rfl
  · have hloop : ∀ (n k : Nat) (last : Option PyErr),
        attemptLoop (fun _ => CallOutcome.ok emptyChoicesResp) pfx k (n + 1)
            last =
          (Except.error
            (PyErr.llmValidation "Response contains no choices"), n + 1) := by
      intro n
      induction n with
      | zero => intro k last; rfl
      | succ n ih =>
        intro k last
        have hone : attemptLoop (fun _ => CallOutcome.ok emptyChoicesResp)
            pfx k (n + 2) last =
          ((attemptLoop (fun _ => CallOutcome.ok emptyChoicesResp) pfx
              (k + 1) (n + 1)
              (some (PyErr.llmValidation "Response contains no choices"))).1,
            (attemptLoop (fun _ => CallOutcome.ok emptyChoicesResp) pfx
              (k + 1) (n + 1)
              (some (PyErr.llmValidation
                "Response contains no choices"))).2 + 1) := rfl
        rw [hone,
          ih (k + 1) (some (PyErr.llmValidation "Response contains no choices"))]
    unfold makeApiCall
    rw [show validateRequestParams okParams = Except.ok () from rfl,
      hloop maxRetries 0 none]
    rfl

/-- C4 amended-claim witness at concrete inputs. -/
theorem response_validation_retry_behavior_inst :
    makeApiCall [] (fun _ => CallOutcome.ok emptyChoicesResp) "P" 1 =
      (Except.error
        (PyErr.llmError ("P" ++ ": " ++ "Missing required fields")), 0) ∧
    makeApiCall okParams (fun _ => CallOutcome.ok emptyChoicesResp) "P" 1 =
      (Except.error (PyErr.llmError
        ("P" ++ ": " ++ "Response contains no choices")), 2) :=
  ⟨(response_validation_retry_behavior 1 [] (fun _ => CallOutcome.ok
      emptyChoicesResp) "P" "Missing required fields").2.1 (by rfl),
   (response_validation_retry_behavior 1 okParams (fun _ => CallOutcome.ok
      emptyChoicesResp) "P" "Missing required fields").2.2⟩

/-! ## SHA-256 (hashlib.sha256 used by src/llms/cache_control.py)

A bit-exact embedding of SHA-256 (FIPS 180-4) over byte lists, with
32-bit words as naturals reduced mod 2^32; checked against
`hashlib.sha256` digests.  `utf8Encode` is `str.encode()`. -/

/-- 2^32, the word modulus. -/
def m32 : Nat := 4294967296

/-- Right rotation of a 32-bit word. -/
def rotr32 (x : Nat) (k : Nat) : Nat :=
  ((x >>> k) ||| (x <<< (32 - k))) % m32

/-- SHA-256 choice function. -/
def shaCh (x y z : Nat) : Nat :=
  (x &&& y) ^^^ ((x ^^^ (m32 - 1)) &&& z)

/-- SHA-256 majority function. -/
def shaMaj (x y z : Nat) : Nat :=
  (x &&& y) ^^^ (x &&& z) ^^^ (y &&& z)

/-- SHA-256 big sigma-0. -/
def bigSigma0 (x : Nat) : Nat := rotr32 x 2 ^^^ rotr32 x 13 ^^^ rotr32 x 22

/-- SHA-256 big sigma-1. -/
def bigSigma1 (x : Nat) : Nat := rotr32 x 6 ^^^ rotr32 x 11 ^^^ rotr32 x 25

/-- SHA-256 small sigma-0. -/
def smallSigma0 (x : Nat) : Nat :=
  rotr32 x 7 ^^^ rotr32 x 18 ^^^ (x >>> 3)

/-- SHA-256 small sigma-1. -/
def smallSigma1 (x : Nat) : Nat :=
  rotr32 x 17 ^^^ rotr32 x 19 ^^^ (x >>> 10)

/-- SHA-256 round constants (FIPS 180-4, in decimal). -/
def shaK : List Nat :=
  [1116352408, 1899447441, 3049323471, 3921009573,
   961987163, 1508970993, 2453635748, 2870763221,
   3624381080, 310598401, 607225278, 1426881987,
   1925078388, 2162078206, 2614888103, 3248222580,
   3835390401, 4022224774, 264347078, 604807628,
   770255983, 1249150122, 1555081692, 1996064986,
   2554220882, 2821834349, 2952996808, 3210313671,
   3336571891, 3584528711, 113926993, 338241895,
   666307205, 773529912, 1294757372, 1396182291,
   1695183700, 1986661051, 2177026350, 2456956037,
   2730485921, 2820302411, 3259730800, 3345764771,
   3516065817, 3600352804, 4094571909, 275423344,
   430227734, 506948616, 659060556, 883997877,
   958139571, 1322822218, 1537002063, 1747873779,
   1955562222, 2024104815, 2227730452, 2361852424,
   2428436474, 2756734187, 3204031479, 3329325298]

/-- SHA-256 initial hash value (FIPS 180-4, in decimal). -/
def shaH0 : List Nat :=
  [1779033703, 3144134277, 1013904242, 2773480762,
   1359893119, 2600822924, 528734635, 1541459225]

/-- Big-endian 64-bit byte encoding of the message bit length. -/
def toBE64 (n : Nat) : List Nat :=
  [(n >>> 56) % 256, (n >>> 48) % 256, (n >>> 40) % 256, (n >>> 32) % 256,
   (n >>> 24) % 256, (n >>> 16) % 256, (n >>> 8) % 256, n % 256]

/-- SHA-256 padding: a 0x80 byte, zeros to 56 mod 64, and the bit
length. -/
def padMessage (msg : List Nat) : List Nat :=
  let l := msg.length
  let zeros := (119 - (l % 64)) % 64
  msg ++ (128 :: List.replicate zeros 0) ++ toBE64 (l * 8)

/-- Group bytes into big-endian 32-bit words. -/
def toWords : List Nat → List Nat
  | b0 :: b1 :: b2 :: b3 :: rest =>
    (((b0 * 256 + b1) * 256 + b2) * 256 + b3) :: toWords rest
  | _ => []

/-- Group words into 16-word blocks. -/
def chunkBlocks : List Nat → List (List Nat)
  | [] => []
  | w0 :: w1 :: w2 :: w3 :: w4 :: w5 :: w6 :: w7 ::
      w8 :: w9 :: w10 :: w11 :: w12 :: w13 :: w14 :: w15 :: rest =>
    [w0, w1, w2, w3, w4, w5, w6, w7,
     w8, w9, w10, w11, w12, w13, w14, w15] :: chunkBlocks rest
  | _ => []

/-- Extend the 16-word message schedule by the given number of words. -/
def extendW (ws : List Nat) : Nat → List Nat
  | 0 => ws
  | n + 1 =>
    let len := ws.length
    let next := (smallSigma1 (ws.getD (len - 2) 0) + ws.getD (len - 7) 0 +
      smallSigma0 (ws.getD (len - 15) 0) + ws.getD (len - 16) 0) % m32
    extendW (ws ++ [next]) n

/-- One SHA-256 compression round on the eight-word state. -/
def compressStep (st : List Nat) (kw : Nat × Nat) : List Nat :=
  match st with
  | [a, b, c, d, e, f, g, h] =>
    let t1 := (h + bigSigma1 e + shaCh e f g + kw.1 + kw.2) % m32
    let t2 := (bigSigma0 a + shaMaj a b c) % m32
    [(t1 + t2) % m32, a, b, c, (d + t1) % m32, e, f, g]
  | st => st

/-- Compress one 16-word block into the running hash. -/
def compressBlock (h : List Nat) (block : List Nat) : List Nat :=
  let w := extendW block 48
  let st := (shaK.zip w).foldl compressStep h
  (h.zip st).map (fun p => (p.1 + p.2) % m32)

/-- SHA-256 digest of a byte list, as 32 bytes. -/
def sha256Bytes (msg : List Nat) : List Nat :=
  let blocks := chunkBlocks (toWords (padMessage msg))
  let hfin := blocks.foldl compressBlock shaH0
  hfin.foldr (fun w acc =>
    (w >>> 24) % 256 :: (w >>> 16) % 256 :: (w >>> 8) % 256 :: w % 256 :: acc)
    []

/-- Lowercase hex digit. -/
def hexChar (n : Nat) : Char :=
  if n < 10 then Char.ofNat (48 + n) else Char.ofNat (87 + n)

/-- Two lowercase hex digits of a byte. -/
def hexByte (b : Nat) : List Char :=
  [hexChar (b / 16), hexChar (b % 16)]

/-- Python `hashlib.sha256(...).hexdigest()` character list. -/
def hexDigestL (bytes : List Nat) : List Char :=
  bytes.foldr (fun b acc => hexByte b ++ acc) []

/-- UTF-8 encoding of one character. -/
def utf8Char (c : Char) : List Nat :=
  let n := c.toNat
  if n < 128 then [n]
  else if n < 2048 then [192 ||| (n >>> 6), 128 ||| (n &&& 63)]
  else if n < 65536 then
    [224 ||| (n >>> 12), 128 ||| ((n >>> 6) &&& 63), 128 ||| (n &&& 63)]
  else
    [240 ||| (n >>> 18), 128 ||| ((n >>> 12) &&& 63),
     128 ||| ((n >>> 6) &&& 63), 128 ||| (n &&& 63)]

/-- Python `str.encode()`: UTF-8 bytes of a string. -/
def utf8Encode (s : String) : List Nat :=
  s.toList.foldr (fun c acc => utf8Char c ++ acc) []

/-! ## Cache policy (src/llms/cache_control.py)

The float price multipliers of `PROVIDER_PRICING` are exact decimal
literals (1.0, 1.2, 0.2, 1.5, 0.5); they are embedded scaled by ten to
naturals, and the threshold 0.5 of `should_enable_caching` becomes 5.
The scaling is exact and order-preserving, so every comparison the code
performs is preserved. -/

/-- Python `str.lower()` (ASCII case folding). -/
def pyLower (s : String) : String := String.mk (s.toList.map Char.toLower)

/-- Python `needle in hay` on strings. -/
def strContains (hay needle : String) : Bool :=
  let h := hay.toList
  let n := needle.toList
  (List.range (h.length + 1)).any (fun i => n.isPrefixOf (h.drop i))

/-- The `PROVIDER_PRICING` table (cache_control.py lines 12-23),
multipliers in tenths. -/
def providerPricing : List (String × List (String × Nat)) :=
  [("openai",
    [("gpt-4", 10), ("gpt-4-vision-preview", 12), ("gpt-3.5-turbo", 2)]),
   ("anthropic",
    [("claude-3-opus", 15), ("claude-3-sonnet", 10), ("claude-3-haiku", 5)])]

/-- The `CACHE_EXPIRATION` table in minutes (cache_control.py lines
26-30). -/
def cacheExpiration : List (String × Nat) :=
  [("openai", 60), ("anthropic", 5), ("default", 30)]

/-- Embedding of `should_enable_caching` (cache_control.py lines
43-55): infer the provider from a `gpt`/`claude` substring of the
lowercased model name, look the full model name up in that provider's
pricing table with default 0, and require a multiplier of at least 0.5
(here 5 tenths). -/
def shouldEnableCaching (model : String) : Bool :=
  let ml := pyLower model
  let provider : Option String :=
    if strContains ml "gpt" then some "openai"
    else if strContains ml "claude" then some "anthropic"
    else none
  match provider with
  | none => false
  | some p =>
    let pricing := (dictGet ((dictGet providerPricing p).getD []) model).getD 0
    decide (5 ≤ pricing)

/-- Embedding of `_calculate_cache_key` (cache_control.py lines
110-114): the role, an underscore, and the first 16 hex characters of
the SHA-256 of the raw (un-normalized) content. -/
def calcCacheKey (content : String) (role : String) : String :=
  role ++ "_" ++ String.mk ((hexDigestL (sha256Bytes (utf8Encode content))).take 16)

/-- Four lowercase hex digits. -/
def hex4 (n : Nat) : List Char :=
  [hexChar ((n >>> 12) % 16), hexChar ((n >>> 8) % 16),
   hexChar ((n >>> 4) % 16), hexChar (n % 16)]

/-- JSON escaping of one character as performed by `json.dumps` with
its default `ensure_ascii=True`: named escapes for the usual control
characters, `\uXXXX` (with surrogate pairs beyond the BMP) for other
characters outside the printable ASCII range. -/
def jsonEscChar (c : Char) : List Char :=
  if c = Char.ofNat 34 then [Char.ofNat 92, Char.ofNat 34]
  else if c = Char.ofNat 92 then [Char.ofNat 92, Char.ofNat 92]
  else if c = Char.ofNat 10 then [Char.ofNat 92, 'n']
  else if c = Char.ofNat 9 then [Char.ofNat 92, 't']
  else if c = Char.ofNat 13 then [Char.ofNat 92, 'r']
  else if c = Char.ofNat 8 then [Char.ofNat 92, 'b']
  else if c = Char.ofNat 12 then [Char.ofNat 92, 'f']
  else if c.toNat < 32 ∨ 126 < c.toNat then
    if c.toNat < 65536 then Char.ofNat 92 :: 'u' :: hex4 c.toNat
    else
      let n := c.toNat - 65536
      (Char.ofNat 92 :: 'u' :: hex4 (55296 + (n >>> 10))) ++
        (Char.ofNat 92 :: 'u' :: hex4 (56320 + (n &&& 1023)))
  else [c]

/-- JSON string literal of `s` as `json.dumps` renders it. -/
def jsonStr (s : String) : String :=
  String.mk (Char.ofNat 34 ::
    s.toList.foldr (fun c acc => jsonEscChar c ++ acc) [Char.ofNat 34])

/-- Word splitting of Python `str.split()` with no separator: split on
whitespace runs, dropping empty pieces. -/
def pyWordsAux : List Char → List Char → List (List Char)
  | [], cur => if cur.isEmpty then [] else [cur.reverse]
  | c :: cs, cur =>
    if isPyWs c then
      if cur.isEmpty then pyWordsAux cs []
      else cur.reverse :: pyWordsAux cs []
    else pyWordsAux cs (c :: cur)

/-- The whitespace normalization `" ".join(content.split())` of
`create_cache_key` (cache_control.py line 99). -/
def normalizeWs (s : String) : String :=
  String.mk (joinSpace (pyWordsAux s.toList []))

/-- The `json.dumps(key_data, sort_keys=True)` serialization of
`create_cache_key` for a call without extra keyword components: the
keys `content`, `model`, `role` in sorted order, with the normalized
content and lowercased role and model. -/
def keyString (content role model : String) : String :=
  "\x7b" ++ jsonStr "content" ++ ": " ++ jsonStr (normalizeWs content) ++
    ", " ++ jsonStr "model" ++ ": " ++ jsonStr (pyLower model) ++
    ", " ++ jsonStr "role" ++ ": " ++ jsonStr (pyLower role) ++ "\x7d"

/-- Embedding of `create_cache_key` (cache_control.py lines 85-108):
the role, an underscore, and the full SHA-256 hex digest of the sorted
JSON serialization of the normalized content with role and model.
This is the normalizing key function the specification describes; the
repository never calls it. -/
def createCacheKey (content role model : String) : String :=
  role ++ "_" ++
    String.mk (hexDigestL (sha256Bytes (utf8Encode (keyString content role model))))

/-- Embedding of `create_cacheable_message` (cache_control.py lines
116-153) against a cache store mapping keys to values: small or
non-cacheable content is passed through; otherwise the key is
`_calculate_cache_key(content, role)` - the raw-content hash - used
first for a lookup and then for a store write.  Returns the message as
a (role, content) pair together with the post-call store. -/
def createCacheableMessage (store : List (String × String))
    (role content : String) (cacheLargeContent : Bool)
    (minCacheSize : Nat) : (String × String) × List (String × String) :=
  if cacheLargeContent = false ∨ content.length < minCacheSize then
    ((role, content), store)
  else
    let key := calcCacheKey content role
    match dictGet store key with
    | some cached => ((role, cached), store)
    | none => ((role, content), dictSet store key content)

/-- A message dict `{"role": ..., "content": ...}` as built by the
cognitive modules. -/
structure CacheMsg : Type where
  role : String
  content : String

/-- Comma-space joining as in `json.dumps` list output. -/
def joinCommaSp : List String → String
  | [] => ""
  | [x] => x
  | x :: xs => x ++ ", " ++ joinCommaSp xs

/-- `json.dumps(messages, sort_keys=True)` for a list of
role/content message dicts (keys sorted: content before role). -/
def jsonDumpsMsgs (msgs : List CacheMsg) : String :=
  "[" ++ joinCommaSp (msgs.map (fun m =>
    "\x7b" ++ jsonStr "content" ++ ": " ++ jsonStr m.content ++ ", " ++
      jsonStr "role" ++ ": " ++ jsonStr m.role ++ "\x7d")) ++ "]"

/-- The response cache key of `cache_response`/`get_cached_response`
(cache_control.py lines 174-175 and 209-210). -/
def responseCacheKey (msgs : List CacheMsg) : String :=
  "response_" ++
    String.mk ((hexDigestL (sha256Bytes (utf8Encode (jsonDumpsMsgs msgs)))).take 16)

/-- Entry written by `cache_manager.set`: the response value and the
`expires_in` minutes passed with it. -/
structure CacheEntry : Type where
  value : String
  expiresIn : Nat
deriving DecidableEq

/-- Embedding of `cache_response` (cache_control.py lines 155-187)
against a store state: a model that is not cache-worthy returns with
the store untouched; otherwise the response is stored under the
message-list key with the provider's expiration. -/
def cacheResponse (store : List (String × CacheEntry))
    (provider model : String) (msgs : List CacheMsg) (response : String) :
    List (String × CacheEntry) :=
  if shouldEnableCaching model then
    let expiresIn := (dictGet cacheExpiration provider).getD 30
    dictSet store (responseCacheKey msgs) ⟨response, expiresIn⟩
  else store

/-- Embedding of `get_cached_response` (cache_control.py lines
189-218): `None` for a model that is not cache-worthy; otherwise the
stored value under the message-list key, with Python truthiness (an
empty cached string also yields `None`). -/
def getCachedResponse (store : List (String × CacheEntry))
    (provider model : String) (msgs : List CacheMsg) : Option String :=
  if shouldEnableCaching model then
    match dictGet store (responseCacheKey msgs) with
    | some e => if e.value = "" then none else some e.value
    | none => none
  else none

/-- Model identifier of `REASONING_CONFIG` (src/config.py line 72). -/
def reasoningModel : String := "openai/o1-preview"

/-- Model identifier of `PLANNING_CONFIG` (src/config.py line 88). -/
def planningModel : String := "anthropic/claude-3.5-sonnet:beta"

/-- Model identifier of `EXECUTOR_CONFIG` (src/config.py line 104). -/
def executorModel : String := "anthropic/claude-3-5-haiku:beta"

/-- C7 counterexample: the contents `"a b"` and `"a  b"` are equal
after whitespace collapsing, but `_calculate_cache_key` - the key
function used on the message-caching path - hashes the raw content and
produces different keys, so a formatting difference alone causes a
message-cache miss. -/
theorem messageCacheKey_whitespace_sensitive :
    normalizeWs "a b" = normalizeWs "a  b" ∧
    calcCacheKey "a b" "user" ≠ calcCacheKey "a  b" "user" := by
  exact ⟨by rfl, by decide⟩

/-- C7 (amended): the normalizing key function `create_cache_key`
gives equal keys for contents equal after whitespace collapsing, but
the message-caching path (`create_cacheable_message`) instead keys by
`_calculate_cache_key`, the hash of the raw content, both for its
lookup and for its write - so formatting differences do cause
message-cache misses there. -/
theorem createCacheKey_collapse_invariant (c1 c2 role model : String)
    (h : normalizeWs c1 = normalizeWs c2) :
    createCacheKey c1 role model = createCacheKey c2 role model ∧
    (∀ store minSize, minSize ≤ c1.length →
      dictGet store (calcCacheKey c1 role) = none →
      (createCacheableMessage store role c1 true minSize).2 =
        dictSet store (calcCacheKey c1 role) c1) := by
  constructor
  · unfold createCacheKey keyString
    rw [h]
  · intro store minSize hsize hmiss
    unfold createCacheableMessage
    rw [if_neg (by
      rintro (hfalse | hlt)
      · exact Bool.noConfusion hfalse
      · omega)]
    show (match dictGet store (calcCacheKey c1 role) with
      | some cached => ((role, cached), store)
      | none => ((role, c1), dictSet store (calcCacheKey c1 role) c1)).2 = _
    rw [hmiss]

/-- C7 amended-claim witness at concrete inputs. -/
theorem createCacheKey_collapse_invariant_inst :
    createCacheKey "a b" "user" "m" = createCacheKey "a  b" "user" "m" ∧
    (createCacheableMessage [] "user" "a b" true 1).2 =
      dictSet [] (calcCacheKey "a b" "user") "a b" :=
  ⟨(createCacheKey_collapse_invariant "a b" "a  b" "user" "m" (by rfl)).1,
   (createCacheKey_collapse_invariant "a b" "a  b" "user" "m" (by rfl)).2
     [] 1 (by decide) (by rfl)⟩

/-- C10: cache-worthiness looks the full model identifier up in a
pricing table keyed by short model names, so every provider-prefixed
default model - `openai/o1-preview` (which also lacks the `gpt`
substring that selects a provider), `anthropic/claude-3.5-sonnet:beta`
and `anthropic/claude-3-5-haiku:beta` - is judged not cache-worthy,
which makes `cache_response` leave the store untouched and
`get_cached_response` return `None` for the whole default pipeline. -/
theorem default_models_caching_disabled :
    (shouldEnableCaching reasoningModel = false ∧
     shouldEnableCaching planningModel = false ∧
     shouldEnableCaching executorModel = false) ∧
    (∀ (store : List (String × CacheEntry)) (provider : String)
        (msgs : List CacheMsg) (response : String),
      cacheResponse store provider reasoningModel msgs response = store ∧
      cacheResponse store provider planningModel msgs response = store ∧
      cacheResponse store provider executorModel msgs response = store ∧
      getCachedResponse store provider reasoningModel msgs = none ∧
      getCachedResponse store provider planningModel msgs = none ∧
      getCachedResponse store provider executorModel msgs = none) := by
  have h1 : shouldEnableCaching reasoningModel = false := by decide
  have h2 : shouldEnableCaching planningModel = false := by decide
  have h3 : shouldEnableCaching executorModel = false := by decide
  refine ⟨⟨h1, h2, h3⟩, ?_⟩
  intro store provider msgs response
  refine ⟨?_, ?_, ?_, ?_, ?_, ?_⟩ <;>
    simp [cacheResponse, getCachedResponse, h1, h2, h3]

/-! ## Configuration validation (src/config.py and src/llms/base.py)

`LLMConfig.__post_init__` bounds-checks the float sampling parameters;
the comparisons are against exact decimal literals, so the parameters
are embedded as rationals.  `BaseLLMModule._validate_config` checks
the API key, the model name, and - when the config carries a
`rate_limit` attribute (modelled as an `Option`) - the two rate-limit
bounds. -/

/-- The `RateLimit` dataclass (src/llms/rate_limiter.py lines 6-9). -/
structure RateLimitCfg : Type where
  requestsPerMinute : Int
  concurrentRequests : Int
deriving DecidableEq

/-- Embedding of `LLMConfig.__post_init__` (src/config.py lines
31-44): the four bound checks in order, each raising `ValueError`
with its message. -/
def postInitCheck (temperature topP presencePenalty frequencyPenalty : ℚ) :
    Except String Unit :=
  if ¬ (0 ≤ temperature ∧ temperature ≤ 2) then
    Except.error "Temperature must be between 0.0 and 2.0"
  else if ¬ (0 ≤ topP ∧ topP ≤ 1) then
    Except.error "Top-p must be between 0.0 and 1.0"
  else if ¬ (-2 ≤ presencePenalty ∧ presencePenalty ≤ 2) then
    Except.error "Presence penalty must be between -2.0 and 2.0"
  else if ¬ (-2 ≤ frequencyPenalty ∧ frequencyPenalty ≤ 2) then
    Except.error "Frequency penalty must be between -2.0 and 2.0"
  else Except.ok ()

/-- Embedding of `BaseLLMModule._validate_config` (src/llms/base.py
lines 38-50), run at module construction: empty API key and empty
model name are falsy and rejected; a present `rate_limit` attribute
(the `hasattr` test) must have both bounds at least 1, otherwise a
taxonomy `ValidationError` is raised. -/
def validateRateBounds : Option RateLimitCfg → Except PyErr Unit
  | none => Except.ok ()
  | some rl =>
    if rl.requestsPerMinute < 1 then
      Except.error (PyErr.llmValidation "Requests per minute must be at least 1")
    else if rl.concurrentRequests < 1 then
      Except.error (PyErr.llmValidation "Concurrent requests must be at least 1")
    else Except.ok ()

/-- Embedding of `BaseLLMModule._validate_config` (src/llms/base.py
lines 38-50), run at module construction: empty API key and empty
model name are falsy and rejected; then the rate-limit bounds are
checked. -/
def validateModuleConfig (apiKey model : String)
    (rateLimit : Option RateLimitCfg) : Except PyErr Unit :=
  if apiKey = "" then
    Except.error (PyErr.llmValidation "API key is required")
  else if model = "" then
    Except.error (PyErr.llmValidation "Model name is required")
  else validateRateBounds rateLimit

/-- C9: construction fails fast exactly on out-of-range parameters:
`LLMConfig.__post_init__` succeeds iff the temperature is in [0, 2],
top-p in [0, 1] and both penalties in [-2, 2] (so any violation raises
at construction time), and module construction with a supplied rate
limit succeeds iff the key and model are non-empty and both
`requests_per_minute` and `concurrent_requests` are at least 1 (a
bound below 1 fails with a `ValidationError` rather than admitting
unbounded load). -/
theorem config_validation_fail_fast
    (temperature topP presencePenalty frequencyPenalty : ℚ)
    (apiKey model : String) (rl : RateLimitCfg) :
    ((postInitCheck temperature topP presencePenalty
        frequencyPenalty).isOk = true ↔
      (0 ≤ temperature ∧ temperature ≤ 2) ∧ (0 ≤ topP ∧ topP ≤ 1) ∧
      (-2 ≤ presencePenalty ∧ presencePenalty ≤ 2) ∧
      (-2 ≤ frequencyPenalty ∧ frequencyPenalty ≤ 2)) ∧
    ((validateModuleConfig apiKey model (some rl)).isOk = true ↔
      apiKey ≠ "" ∧ model ≠ "" ∧ 1 ≤ rl.requestsPerMinute ∧
      1 ≤ rl.concurrentRequests) ∧
    ((rl.requestsPerMinute < 1 ∨ rl.concurrentRequests < 1) →
      apiKey ≠ "" → model ≠ "" →
      ∃ msg, validateModuleConfig apiKey model (some rl) =
        Except.error (PyErr.llmValidation msg)) := by
  refine ⟨?_, ?_, ?_⟩
  · unfold postInitCheck
    constructor
    · intro h
      by_contra hc
      by_cases h1 : 0 ≤ temperature ∧ temperature ≤ 2
      · rw [if_neg (by tauto)] at h
        by_cases h2 : 0 ≤ topP ∧ topP ≤ 1
        · rw [if_neg (by tauto)] at h
          by_cases h3 : -2 ≤ presencePenalty ∧ presencePenalty ≤ 2
          · rw [if_neg (by tauto)] at h
            by_cases h4 : -2 ≤ frequencyPenalty ∧ frequencyPenalty ≤ 2
            · exact hc ⟨h1, h2, h3, h4⟩
            · rw [if_pos h4] at h
              exact Bool.noConfusion h
          · rw [if_pos h3] at h
            exact Bool.noConfusion h
        · rw [if_pos h2] at h
          exact Bool.noConfusion h
      · rw [if_pos h1] at h
        exact Bool.noConfusion h
    · rintro ⟨h1, h2, h3, h4⟩
      rw [if_neg (by tauto), if_neg (by tauto), if_neg (by tauto),
        if_neg (by tauto)]
      rfl
  · unfold validateModuleConfig
    constructor
    · intro h
      by_cases hk : apiKey = ""
      · rw [if_pos hk] at h
        exact Bool.noConfusion h
      · rw [if_neg hk] at h
        by_cases hm : model = ""
        · rw [if_pos hm] at h
          exact Bool.noConfusion h
        · rw [if_neg hm] at h
          simp only [validateRateBounds] at h
          by_cases hr : rl.requestsPerMinute < 1
          · rw [if_pos hr] at h
            exact Bool.noConfusion h
          · rw [if_neg hr] at h
            by_cases hcc : rl.concurrentRequests < 1
            · rw [if_pos hcc] at h
              exact Bool.noConfusion h
            · exact ⟨hk, hm, by omega, by omega⟩
    · rintro ⟨hk, hm, hr, hcc⟩
      rw [if_neg hk, if_neg hm]
      simp only [validateRateBounds]
      rw [if_neg (show ¬ rl.requestsPerMinute < 1 by omega),
        if_neg (show ¬ rl.concurrentRequests < 1 by omega)]
      rfl
  · rintro (hr | hcc) hk hm
    · refine ⟨"Requests per minute must be at least 1", ?_⟩
      unfold validateModuleConfig
      rw [if_neg hk, if_neg hm]
      simp only [validateRateBounds]
      rw [if_pos hr]
    · by_cases hr2 : rl.requestsPerMinute < 1
      · refine ⟨"Requests per minute must be at least 1", ?_⟩
        unfold validateModuleConfig
        rw [if_neg hk, if_neg hm]
        simp only [validateRateBounds]
        rw [if_pos hr2]
      · refine ⟨"Concurrent requests must be at least 1", ?_⟩
        unfold validateModuleConfig
        rw [if_neg hk, if_neg hm]
        simp only [validateRateBounds]
        rw [if_neg hr2, if_pos hcc]

/-- C9 witness: a temperature of 3 is rejected, in-range parameters
are accepted, and a rate limit of 0 requests per minute fails module
construction with a `ValidationError`. -/
theorem config_validation_fail_fast_inst :
    (postInitCheck 3 1 0 0).isOk = false ∧
    (postInitCheck 1 1 0 0).isOk = true ∧
    (∃ msg, validateModuleConfig "k" "m" (some ⟨0, 5⟩) =
      Except.error (PyErr.llmValidation msg)) := by
  have h3 := config_validation_fail_fast 3 1 0 0 "k" "m" ⟨0, 5⟩
  refine ⟨?_, ?_, ?_⟩
  · cases hc : (postInitCheck 3 1 0 0).isOk with
    | false => rfl
    | true =>
      rcases h3.1.mp hc with ⟨⟨_, hle⟩, _⟩
      norm_num at hle
  · exact (config_validation_fail_fast 1 1 0 0 "k" "m" ⟨0, 5⟩).1.mpr
      (by norm_num)
  · exact h3.2.2 (Or.inl (by norm_num)) (by decide) (by decide)

end MultiAgent
